import Mathlib

/-!
Shallow embedding of `desktop-app/src-tauri/src/main.rs` (Ai_File_Organiser).

The Rust file is a Tauri shell whose command handlers spawn a Python
interpreter on external scripts and relay the result.  We model the
ambient effects (current directory, path existence, subprocess spawning,
JSON text parsing by serde_json) as components of an explicit
environment record, and each handler as a pure function of that
environment and its arguments.  Machine strings are Lean `String`s
(`String::from_utf8_lossy` is modelled as the identity on the already
decoded text); JSON numbers are rationals; `u32` fields are naturals
checked against `2^32`.
-/

namespace AiOrg

/-- Outcome of a successfully spawned subprocess: exit status flag
(`status.success()`), captured stdout and stderr (after lossy UTF-8
decoding). -/
structure ProcOutput where
  success : Bool
  stdout : String
  stderr : String
deriving Repr, DecidableEq

/-- JSON values, as produced by serde_json's parser. -/
inductive Json where
  | null : Json
  | bool (b : Bool) : Json
  | num (q : ℚ) : Json
  | str (s : String) : Json
  | arr (elems : List Json) : Json
  | obj (fields : List (String × Json)) : Json

/-- Field lookup in a JSON object (first binding wins); `none` on
non-objects and absent fields. -/
def Json.getField (j : Json) (name : String) : Option Json :=
  match j with
  | .obj fields =>
    match fields.find? (fun p => p.1 = name) with
    | some p => some p.2
    | none => none
  | _ => none

/-- serde deserialization of a `String` field. -/
def Json.asStr (j : Json) : Option String :=
  match j with
  | .str s => some s
  | _ => none

/-- serde deserialization of an `f32` field: any JSON number. -/
def Json.asF32 (j : Json) : Option ℚ :=
  match j with
  | .num q => some q
  | _ => none

/-- serde deserialization of a `u32` field: a non-negative integral
JSON number below `2^32`. -/
def Json.asU32 (j : Json) : Option ℕ :=
  match j with
  | .num q => if q.den = 1 ∧ 0 ≤ q.num ∧ q.num < 2 ^ 32 then some q.num.toNat else none
  | _ => none

/-- serde deserialization of a `Vec<String>` field. -/
def Json.asStrList (j : Json) : Option (List String) :=
  match j with
  | .arr elems => elems.mapM Json.asStr
  | _ => none

/-- serde deserialization of an `Option<String>` field: an absent field
or JSON `null` gives `None`; a JSON string gives `Some`; anything else
is a type error. -/
def decodeOptStr (field : Option Json) : Option (Option String) :=
  match field with
  | none => some none
  | some .null => some none
  | some (.str s) => some (some s)
  | some _ => none

/-- Mirror of the Rust struct `ClassificationResult` (serde `Derive`d,
field names verbatim). -/
structure ClassificationResult where
  category : String
  subcategory : Option String
  confidence : ℚ
  suggested_path : String
  suggested_name : Option String
  tags : List String
  summary : Option String
  reasoning : Option String
  model_used : String
  processing_time_ms : ℕ
  tokens_used : ℕ
  cost_usd : ℚ
deriving Repr, DecidableEq

/-- serde_json deserialization of `ClassificationResult` from a parsed
JSON value: every non-`Option` field must be present with its declared
type; `Option` fields default to `None` when absent or `null`; unknown
fields are ignored (no `deny_unknown_fields`). -/
def decodeClassification (j : Json) : Option ClassificationResult :=
  ((j.getField "category").bind Json.asStr).bind fun category =>
  (decodeOptStr (j.getField "subcategory")).bind fun subcategory =>
  ((j.getField "confidence").bind Json.asF32).bind fun confidence =>
  ((j.getField "suggested_path").bind Json.asStr).bind fun suggested_path =>
  (decodeOptStr (j.getField "suggested_name")).bind fun suggested_name =>
  ((j.getField "tags").bind Json.asStrList).bind fun tags =>
  (decodeOptStr (j.getField "summary")).bind fun summary =>
  (decodeOptStr (j.getField "reasoning")).bind fun reasoning =>
  ((j.getField "model_used").bind Json.asStr).bind fun model_used =>
  ((j.getField "processing_time_ms").bind Json.asU32).bind fun processing_time_ms =>
  ((j.getField "tokens_used").bind Json.asU32).bind fun tokens_used =>
  ((j.getField "cost_usd").bind Json.asF32).bind fun cost_usd =>
  some ⟨category, subcategory, confidence, suggested_path, suggested_name,
        tags, summary, reasoning, model_used, processing_time_ms,
        tokens_used, cost_usd⟩

/-- The non-`Option` (serde-required) fields of `ClassificationResult`. -/
def requiredFields : List String :=
  ["category", "confidence", "suggested_path", "tags",
   "model_used", "processing_time_ms", "tokens_used", "cost_usd"]

/-- Mirror of the Rust struct `FileItem`. -/
structure FileItem where
  path : String
  name : String
  size : ℕ
  modified : String
  category : Option String
deriving Repr, DecidableEq

/-- Mirror of the Rust struct `OrganizeOptions`. -/
structure OrganizeOptions where
  folder : String
  preview : Bool
  auto_approve : Bool
  deep_analysis : Bool
  use_multi_model : Bool
  user_tier : String
deriving Repr, DecidableEq

/-- The slice of `std::fs::Metadata` the shell reads: `is_file()`,
`len()`, and `modified()` (modelled as the already `{:?}`-formatted
time when `Ok`, `none` when the call errors).  `is_file` is `true`
exactly for regular files — it is `false` for directories. -/
structure Metadata where
  is_file : Bool
  len : ℕ
  modifiedOk : Option String
deriving Repr, DecidableEq

/-- One `fs::read_dir` entry that was itself `Ok`: file name, full
path, and the result of its `metadata()` call (`none` = errored). -/
structure DirEntry where
  file_name : String
  entryPath : String
  metadataResult : Option Metadata
deriving Repr, DecidableEq

/-- The ambient effects the shell touches, as one record: result of
`std::env::current_dir()`, `Path::parent`, `Path::exists`, serde_json's
textual parser and its error formatter, subprocess execution
(`Command::output`, keyed by program and argument list; `Except.error`
is a spawn failure), and `fs::read_dir` (a `none` list element is an
entry whose own `Result` was `Err`). -/
structure Env where
  currentDirResult : Except String String
  parentOf : String → Option String
  pathExists : String → Bool
  jsonParse : String → Option Json
  jsonErr : String → String
  run : String → List String → Except String ProcOutput
  readDir : String → Except String (List (Option DirEntry))

/-- `PathBuf::join` with a relative component. -/
def pathJoin (a b : String) : String := a ++ "/" ++ b

/-- The path `<parent>/src/cli/classify_single.py` built in `classify_file`. -/
def classifySingleScript (parent : String) : String :=
  pathJoin (pathJoin (pathJoin parent "src") "cli") "classify_single.py"

/-- The path `<parent>/src/cli/commands.py` built in `organize_folder`. -/
def commandsScript (parent : String) : String :=
  pathJoin (pathJoin (pathJoin parent "src") "cli") "commands.py"

/-- Argument list of the classify subprocess: the script path, then
`--file <file_path> --json`, then `--multi-model --tier <tier>` when
`use_multi_model`. -/
def classifyArgs (script file_path : String) (use_multi_model : Bool) (tier : String) :
    List String :=
  [script, "--file", file_path, "--json"] ++
    (if use_multi_model then ["--multi-model", "--tier", tier] else [])

/-- Argument list of the organize subprocess: the script path, then
`organize <folder>`, then the option flags in source order. -/
def organizeArgs (script : String) (options : OrganizeOptions) : List String :=
  [script, "organize", options.folder] ++
    (if options.preview then ["--preview"] else []) ++
    (if options.auto_approve then ["--auto"] else []) ++
    (if options.deep_analysis then ["--deep"] else []) ++
    (if options.use_multi_model then ["--multi-model", "--tier", options.user_tier] else [])

/-- `classify_file`, instrumented with the list of subprocess commands
it spawned (program, argument list).  Mirrors the Rust handler line by
line: current dir, parent, script existence check, spawn, exit-status
check, `serde_json::from_str` on stdout. -/
def classify_file_run (env : Env) (file_path : String) (use_multi_model : Bool)
    (tier : String) :
    Except String ClassificationResult × List (String × List String) :=
  match env.currentDirResult with
  | .error e => (.error ("Failed to get current directory: " ++ e), [])
  | .ok project_root =>
    match env.parentOf project_root with
    | none => (.error "Failed to get parent directory", [])
    | some parent =>
      if env.pathExists (classifySingleScript parent) then
        match env.run "python3" (classifyArgs (classifySingleScript parent) file_path use_multi_model tier) with
        | .error e =>
          (.error ("Failed to execute Python: " ++ e),
           [("python3", classifyArgs (classifySingleScript parent) file_path use_multi_model tier)])
        | .ok out =>
          if out.success then
            match (env.jsonParse out.stdout).bind decodeClassification with
            | some r =>
              (.ok r,
               [("python3", classifyArgs (classifySingleScript parent) file_path use_multi_model tier)])
            | none =>
              (.error ("Failed to parse JSON: " ++ env.jsonErr out.stdout),
               [("python3", classifyArgs (classifySingleScript parent) file_path use_multi_model tier)])
          else
            (.error ("Python script failed: " ++ out.stderr),
             [("python3", classifyArgs (classifySingleScript parent) file_path use_multi_model tier)])
      else
        (.error ("Python script not found at: \"" ++ classifySingleScript parent ++ "\""), [])

/-- The Tauri command `classify_file`: result component. -/
def classify_file (env : Env) (file_path : String) (use_multi_model : Bool)
    (tier : String) : Except String ClassificationResult :=
  (classify_file_run env file_path use_multi_model tier).1

/-- The subprocess commands spawned by one `classify_file` call. -/
def classifySpawns (env : Env) (file_path : String) (use_multi_model : Bool)
    (tier : String) : List (String × List String) :=
  (classify_file_run env file_path use_multi_model tier).2

/-- `organize_folder`, instrumented with the list of subprocess
commands it spawned.  Mirrors the Rust handler: current dir, parent,
script existence check, spawn, exit-status check, stdout relayed as the
report text on success. -/
def organize_folder_run (env : Env) (options : OrganizeOptions) :
    Except String String × List (String × List String) :=
  match env.currentDirResult with
  | .error e => (.error ("Failed to get current directory: " ++ e), [])
  | .ok project_root =>
    match env.parentOf project_root with
    | none => (.error "Failed to get parent directory", [])
    | some parent =>
      if env.pathExists (commandsScript parent) then
        match env.run "python3" (organizeArgs (commandsScript parent) options) with
        | .error e =>
          (.error ("Failed to execute Python: " ++ e),
           [("python3", organizeArgs (commandsScript parent) options)])
        | .ok out =>
          if out.success then
            (.ok out.stdout, [("python3", organizeArgs (commandsScript parent) options)])
          else
            (.error ("Organization failed: " ++ out.stderr),
             [("python3", organizeArgs (commandsScript parent) options)])
      else
        (.error ("Python script not found at: \"" ++ commandsScript parent ++ "\""), [])

/-- The Tauri command `organize_folder`: result component. -/
def organize_folder (env : Env) (options : OrganizeOptions) : Except String String :=
  (organize_folder_run env options).1

/-- The subprocess commands spawned by one `organize_folder` call. -/
def organizeSpawns (env : Env) (options : OrganizeOptions) : List (String × List String) :=
  (organize_folder_run env options).2

/-- Body of the `list_files` loop: silently skip an entry whose own
`Result` or whose `metadata()` errored, keep only `metadata.is_file()`
entries, and push a `FileItem` with `category: None` (the `modified`
field falls back to `"Unknown"` when `metadata.modified()` errored). -/
def listStep (files : List FileItem) (oe : Option DirEntry) : List FileItem :=
  match oe with
  | none => files
  | some entry =>
    match entry.metadataResult with
    | none => files
    | some md =>
      if md.is_file then
        files ++ [{ path := entry.entryPath
                    name := entry.file_name
                    size := md.len
                    modified := match md.modifiedOk with
                                | some t => t
                                | none => "Unknown"
                    category := none }]
      else files

/-- The Tauri command `list_files`: existence check, `read_dir`, then
the entry loop. -/
def list_files (env : Env) (directory : String) : Except String (List FileItem) :=
  if env.pathExists directory then
    match env.readDir directory with
    | .error e => .error ("Failed to read directory: " ++ e)
    | .ok entries => .ok (entries.foldl listStep [])
  else
    .error ("Directory does not exist: " ++ directory)

/-- `organize_folder` with the filesystem made explicit: the same shell
logic as `organize_folder_run`, except that the one subprocess spawn is
a state transition `step args fs = (outcome, fs')` on an abstract
filesystem type.  The shell itself performs no filesystem operation, so
the final filesystem is the input one except across the spawn. -/
def organize_folder_fs {Fs : Type} (env : Env)
    (step : List String → Fs → Except String ProcOutput × Fs)
    (options : OrganizeOptions) (fs : Fs) : Except String String × Fs :=
  match env.currentDirResult with
  | .error e => (.error ("Failed to get current directory: " ++ e), fs)
  | .ok project_root =>
    match env.parentOf project_root with
    | none => (.error "Failed to get parent directory", fs)
    | some parent =>
      if env.pathExists (commandsScript parent) then
        match step (organizeArgs (commandsScript parent) options) fs with
        | (.error e, fs1) => (.error ("Failed to execute Python: " ++ e), fs1)
        | (.ok out, fs1) =>
          if out.success then (.ok out.stdout, fs1)
          else (.error ("Organization failed: " ++ out.stderr), fs1)
      else
        (.error ("Python script not found at: \"" ++ commandsScript parent ++ "\""), fs)

/-- Modelled from the spec: the organizer backend `commands.py` is not
part of src/.  Spec §4.2 and §7 require that when the command line
carries `--preview` the backend returns its plan "without touching the
filesystem", and that "a preview never mutates state even on internal
errors" — so the filesystem component of the step is the identity on
every `--preview` invocation, whatever the outcome. -/
def SpecPreviewPure {Fs : Type}
    (step : List String → Fs → Except String ProcOutput × Fs) : Prop :=
  ∀ args fs, "--preview" ∈ args → (step args fs).2 = fs

/-- Modelled from the spec: the classifier backend `classify_single.py`
is not part of src/.  Spec §3 and §8 require that for every valid file
it exits successfully and prints one JSON `ClassificationResult` whose
`confidence` lies in `[0,1]` and whose `category` is non-empty — for
any script location and flag combination the shell may invoke it
with. -/
def SpecConformingClassifier (env : Env) (valid : String → Prop) : Prop :=
  ∀ script fp mm tier, valid fp →
    ∃ out j r,
      env.run "python3" (classifyArgs script fp mm tier) = .ok out ∧
      out.success = true ∧
      env.jsonParse out.stdout = some j ∧
      decodeClassification j = some r ∧
      0 ≤ r.confidence ∧ r.confidence ≤ 1 ∧ r.category ≠ ""

/-- One shell invocation: either Tauri command with its arguments. -/
inductive Call where
  | classify (file_path : String) (use_multi_model : Bool) (tier : String) : Call
  | organize (options : OrganizeOptions) : Call

/-- Result of one shell invocation. -/
inductive CallResult where
  | classifyR (r : Except String ClassificationResult) : CallResult
  | organizeR (r : Except String String) : CallResult

/-- Dispatch one invocation to its handler.  The handlers take no
mutable state: each call reads only the environment and its own
arguments, exactly as in the Rust source where neither handler touches
any shared variable. -/
def runCall (env : Env) : Call → CallResult
  | .classify fp mm tier => .classifyR (classify_file env fp mm tier)
  | .organize options => .organizeR (organize_folder env options)

/-- A session: a sequence of invocations against one environment. -/
def runSession (env : Env) (calls : List Call) : List CallResult :=
  calls.map (runCall env)

/-- Whether a string contains a line break. -/
def hasNewline (s : String) : Bool :=
  s.data.any (fun c => c == '\n')

/-- The fixed message heads the shell prepends to its error strings. -/
def flatHeads : List String :=
  ["Failed to get current directory: ", "Failed to get parent directory",
   "Python script not found at: \"", "Failed to execute Python: ",
   "Python script failed: ", "Failed to parse JSON: ", "Organization failed: "]

/-- A flat (unstructured) boundary error message: one of the fixed
single-line heads followed by embedded detail text. -/
def FlatMsg (m : String) : Prop :=
  ∃ head tail, m = head ++ tail ∧ head ∈ flatHeads ∧ hasNewline head = false

/-- The `FileItem` built in the `list_files` loop body for an entry
whose metadata was read. -/
def fileItemOf (entry : DirEntry) (md : Metadata) : FileItem :=
  { path := entry.entryPath
    name := entry.file_name
    size := md.len
    modified := match md.modifiedOk with
                | some t => t
                | none => "Unknown"
    category := none }

/-- The item, if any, one `read_dir` entry contributes to the
`list_files` result: skipped when the entry or its metadata errored, or
when it is not a regular file. -/
def entryItem (oe : Option DirEntry) : Option FileItem :=
  match oe with
  | none => none
  | some entry =>
    match entry.metadataResult with
    | none => none
    | some md => if md.is_file then some (fileItemOf entry md) else none

/-- Concrete current directory used by the test environments. -/
def rootDir : String := "/r/desktop-app/src-tauri"

/-- Concrete parent of `rootDir`. -/
def parentDir : String := "/r/desktop-app"

/-- A well-formed classification JSON document, with all serde-required
fields present and the `Option` fields absent. -/
def sampleJson : Json :=
  Json.obj [("category", Json.str "Documents"),
            ("confidence", Json.num 1),
            ("suggested_path", Json.str "Documents/Taxes/a.pdf"),
            ("tags", Json.arr [Json.str "tax"]),
            ("model_used", Json.str "m1"),
            ("processing_time_ms", Json.num 12),
            ("tokens_used", Json.num 34),
            ("cost_usd", Json.num 0)]

/-- The decode of `sampleJson`. -/
def sampleResult : ClassificationResult :=
  { category := "Documents"
    subcategory := none
    confidence := 1
    suggested_path := "Documents/Taxes/a.pdf"
    suggested_name := none
    tags := ["tax"]
    summary := none
    reasoning := none
    model_used := "m1"
    processing_time_ms := 12
    tokens_used := 34
    cost_usd := 0 }

/-- Per-entry `read_dir` outcomes exercising every skip branch: a
failed entry, a subdirectory, an entry with unreadable metadata, and
one regular file. -/
def entriesC9 : List (Option DirEntry) :=
  [none,
   some { file_name := "sub", entryPath := "/dir/sub",
          metadataResult := some { is_file := false, len := 0, modifiedOk := none } },
   some { file_name := "bad", entryPath := "/dir/bad", metadataResult := none },
   some { file_name := "a.txt", entryPath := "/dir/a.txt",
          metadataResult := some { is_file := true, len := 5, modifiedOk := some "t0" } }]

/-- Environment where every path exists, the subprocess always succeeds
printing the document `"J"`, and `"J"` parses to `sampleJson`. -/
def envGood : Env :=
  { currentDirResult := .ok rootDir
    parentOf := fun p => if p = rootDir then some parentDir else none
    pathExists := fun _ => true
    jsonParse := fun s => if s = "J" then some sampleJson else none
    jsonErr := fun _ => "expected value at line 1 column 1"
    run := fun _ _ => .ok { success := true, stdout := "J", stderr := "" }
    readDir := fun d => if d = "/dir" then .ok entriesC9 else .error "denied" }

/-- Environment where the folder `"/missing"` does not exist but every
other path (in particular the Python script) does, and the subprocess
succeeds printing `"report"`. -/
def envC1 : Env :=
  { currentDirResult := .ok rootDir
    parentOf := fun p => if p = rootDir then some parentDir else none
    pathExists := fun p => p != "/missing"
    jsonParse := fun _ => none
    jsonErr := fun _ => "expected value at line 1 column 1"
    run := fun _ _ => .ok { success := true, stdout := "report", stderr := "" }
    readDir := fun _ => .error "denied" }

/-- Environment whose subprocess exits unsuccessfully with a stderr
spanning two lines. -/
def envC6 : Env :=
  { currentDirResult := .ok rootDir
    parentOf := fun p => if p = rootDir then some parentDir else none
    pathExists := fun _ => true
    jsonParse := fun _ => none
    jsonErr := fun _ => "expected value at line 1 column 1"
    run := fun _ _ => .ok { success := false, stdout := "", stderr := "boom\nline2" }
    readDir := fun _ => .error "denied" }

/-- Options with a nonexistent folder and a tier outside any enumerated
set. -/
def optsC1 : OrganizeOptions :=
  { folder := "/missing", preview := false, auto_approve := false,
    deep_analysis := false, use_multi_model := false, user_tier := "not-a-tier" }

/-- Preview-mode options. -/
def optsPre : OrganizeOptions :=
  { folder := "/d", preview := true, auto_approve := false,
    deep_analysis := false, use_multi_model := false, user_tier := "free" }

/-- Options exercising every flag. -/
def optsAll : OrganizeOptions :=
  { folder := "/d", preview := true, auto_approve := true,
    deep_analysis := true, use_multi_model := true, user_tier := "pro" }

/-- Options with multi-model off. -/
def optsSingle : OrganizeOptions :=
  { folder := "/d", preview := false, auto_approve := true,
    deep_analysis := true, use_multi_model := false, user_tier := "free" }

/-- A backend step on a counter filesystem that mutates on every
non-preview invocation and is pure on preview invocations. -/
def stepW (args : List String) (fs : ℕ) : Except String ProcOutput × ℕ :=
  (.ok { success := true, stdout := "plan", stderr := "" },
   if "--preview" ∈ args then fs else fs + 1)

theorem preview_mem_organizeArgs (script : String) (o : OrganizeOptions)
    (h : o.preview = true) : "--preview" ∈ organizeArgs script o := by
  simp [organizeArgs, h]

theorem listStep_eq (files : List FileItem) (oe : Option DirEntry) :
    listStep files oe = files ++ (entryItem oe).toList := by
  cases oe with
  | none => simp [listStep, entryItem]
  | some entry =>
    cases hmd : entry.metadataResult with
    | none => simp [listStep, entryItem, hmd]
    | some md =>
      by_cases hf : md.is_file
      · simp [listStep, entryItem, hmd, hf, fileItemOf]
      · simp [listStep, entryItem, hmd, hf]

theorem foldl_listStep (entries : List (Option DirEntry)) (acc : List FileItem) :
    entries.foldl listStep acc = acc ++ entries.filterMap entryItem := by
  induction entries generalizing acc with
  | nil => simp
  | cons oe rest ih =>
    rw [List.foldl_cons, ih, listStep_eq, List.filterMap_cons]
    cases h : entryItem oe <;> simp [h]

theorem decode_some_required {j : Json} {r : ClassificationResult}
    (h : decodeClassification j = some r) :
    ∀ f ∈ requiredFields, j.getField f ≠ none := by
  intro f hf
  simp only [decodeClassification, Option.bind_eq_some] at h
  obtain ⟨cat, ⟨v1, hv1, -⟩, sub, -, conf, ⟨v3, hv3, -⟩, sp, ⟨v4, hv4, -⟩, sn, -,
    tgs, ⟨v6, hv6, -⟩, summ, -, rea, -, mu, ⟨v9, hv9, -⟩, pt, ⟨v10, hv10, -⟩,
    tu, ⟨v11, hv11, -⟩, cu, ⟨v12, hv12, -⟩, -⟩ := h
  fin_cases hf <;> simp_all

theorem classify_file_run_eq (env : Env) (fp : String) (mm : Bool) (tier : String)
    {root parent : String}
    (hc : env.currentDirResult = .ok root)
    (hp : env.parentOf root = some parent)
    (he : env.pathExists (classifySingleScript parent) = true) :
    classify_file_run env fp mm tier =
      match env.run "python3" (classifyArgs (classifySingleScript parent) fp mm tier) with
      | .error e =>
        (.error ("Failed to execute Python: " ++ e),
         [("python3", classifyArgs (classifySingleScript parent) fp mm tier)])
      | .ok out =>
        if out.success then
          match (env.jsonParse out.stdout).bind decodeClassification with
          | some r =>
            (.ok r, [("python3", classifyArgs (classifySingleScript parent) fp mm tier)])
          | none =>
            (.error ("Failed to parse JSON: " ++ env.jsonErr out.stdout),
             [("python3", classifyArgs (classifySingleScript parent) fp mm tier)])
        else
          (.error ("Python script failed: " ++ out.stderr),
           [("python3", classifyArgs (classifySingleScript parent) fp mm tier)]) := by
  unfold classify_file_run
  rw [hc]
  simp [hp, he]

theorem organize_folder_run_eq (env : Env) (o : OrganizeOptions)
    {root parent : String}
    (hc : env.currentDirResult = .ok root)
    (hp : env.parentOf root = some parent)
    (he : env.pathExists (commandsScript parent) = true) :
    organize_folder_run env o =
      match env.run "python3" (organizeArgs (commandsScript parent) o) with
      | .error e =>
        (.error ("Failed to execute Python: " ++ e),
         [("python3", organizeArgs (commandsScript parent) o)])
      | .ok out =>
        if out.success then
          (.ok out.stdout, [("python3", organizeArgs (commandsScript parent) o)])
        else
          (.error ("Organization failed: " ++ out.stderr),
           [("python3", organizeArgs (commandsScript parent) o)]) := by
  unfold organize_folder_run
  rw [hc]
  simp [hp, he]

/-- Claim C7: with the organizer backend modelled from the spec (a
`--preview` invocation never changes the filesystem, whatever its
outcome), every `organize_folder` call with `preview = true` leaves the
filesystem unchanged — also when the call ends in an error. -/
theorem preview_preserves_filesystem {Fs : Type} (env : Env)
    (step : List String → Fs → Except String ProcOutput × Fs)
    (hstep : SpecPreviewPure step) (o : OrganizeOptions)
    (ho : o.preview = true) (fs : Fs) :
    (organize_folder_fs env step o fs).2 = fs := by
  unfold organize_folder_fs
  cases hc : env.currentDirResult with
  | error e => simp
  | ok root =>
    cases hp : env.parentOf root with
    | none => simp [hp]
    | some parent =>
      by_cases he : env.pathExists (commandsScript parent) = true
      · have hfs := hstep (organizeArgs (commandsScript parent) o) fs
          (preview_mem_organizeArgs (commandsScript parent) o ho)
        cases hout : step (organizeArgs (commandsScript parent) o) fs with
        | mk r fs1 =>
          rw [hout] at hfs
          simp only [hp, he, if_true, hout]
          cases r with
          | error e => simpa using hfs
          | ok out =>
            by_cases hs : out.success = true
            · simpa [hs] using hfs
            · simpa [hs] using hfs
      · simp [hp, he]

theorem stepW_preview_pure : SpecPreviewPure stepW := by
  intro args fs h
  simp [stepW, h]

/-- Witness for C7 at a concrete environment, backend and state. -/
theorem preview_preserves_filesystem_witness :
    (organize_folder_fs envGood stepW optsPre 7).2 = 7 :=
  preview_preserves_filesystem envGood stepW stepW_preview_pure optsPre rfl 7

/-- Claim C8: the shell's handlers are stateless and deterministic
across calls: in any session the result of each invocation equals the
fresh single-invocation result, independent of the calls before or
after it — given one environment (identical subprocess behaviour),
equal arguments always give equal results and no state carried by the
shell from one call influences a later call. -/
theorem calls_are_stateless (env : Env) (pre : List Call) (c : Call)
    (post : List Call) :
    (runSession env (pre ++ c :: post))[pre.length]? = some (runCall env c) := by
  unfold runSession
  rw [List.map_append, List.getElem?_append_right (by simp)]
  simp

/-- Claim C9: for an existing directory whose `read_dir` succeeds,
`list_files` returns `Ok` — per-entry failures are skipped, never
turned into a call failure — and every returned `FileItem` has
`category = none` and stems from an entry whose metadata was read and
reported a regular file (`is_file`, which is false for
subdirectories). -/
theorem list_files_only_regular_files (env : Env) (dir : String)
    (entries : List (Option DirEntry))
    (hex : env.pathExists dir = true)
    (hrd : env.readDir dir = .ok entries) :
    list_files env dir = .ok (entries.filterMap entryItem) ∧
    ∀ it ∈ entries.filterMap entryItem,
      it.category = none ∧
      ∃ e md, some e ∈ entries ∧ e.metadataResult = some md ∧
        md.is_file = true ∧ it = fileItemOf e md := by
  constructor
  · unfold list_files
    rw [hex]
    simp only [if_true, hrd, foldl_listStep, List.nil_append]
  · intro it hit
    rw [List.mem_filterMap] at hit
    obtain ⟨oe, hoe, hsome⟩ := hit
    cases oe with
    | none => simp [entryItem] at hsome
    | some e =>
      cases hmd : e.metadataResult with
      | none => simp [entryItem, hmd] at hsome
      | some md =>
        by_cases hf : md.is_file = true
        · have : it = fileItemOf e md := by
            simp [entryItem, hmd, hf] at hsome
            exact hsome.symm
          refine ⟨?_, e, md, hoe, hmd, hf, this⟩
          rw [this]
          rfl
        · simp [entryItem, hmd, hf] at hsome

/-- Witness for C9: a directory with a failed entry, a subdirectory, an
entry with unreadable metadata, and one regular file. -/
theorem list_files_only_regular_files_witness :
    list_files envGood "/dir" = .ok (entriesC9.filterMap entryItem) ∧
    ∀ it ∈ entriesC9.filterMap entryItem,
      it.category = none ∧
      ∃ e md, some e ∈ entriesC9 ∧ e.metadataResult = some md ∧
        md.is_file = true ∧ it = fileItemOf e md :=
  list_files_only_regular_files envGood "/dir" entriesC9 rfl rfl

/-- Claim C10: when `use_multi_model` is false the tier argument has no
effect — `classify_file` builds the identical subprocess command and
returns the identical result for any two tiers, and `organize_folder`
does likewise for two options differing only in `user_tier`. -/
theorem tier_irrelevant_without_multi_model :
    (∀ env fp t t', classify_file_run env fp false t = classify_file_run env fp false t') ∧
    (∀ env (o : OrganizeOptions) t', o.use_multi_model = false →
      organize_folder_run env o = organize_folder_run env { o with user_tier := t' }) := by
  constructor
  · intro env fp t t'
    unfold classify_file_run
    simp [classifyArgs]
  · intro env o t' h
    unfold organize_folder_run
    simp [organizeArgs, h]

/-- Witness for C10 at a concrete environment and options. -/
theorem tier_irrelevant_without_multi_model_witness :
    organize_folder_run envGood optsSingle =
      organize_folder_run envGood { optsSingle with user_tier := "pro" } :=
  tier_irrelevant_without_multi_model.2 envGood optsSingle "pro" rfl

/-- Claim C1 is false as stated: with the backend script present but
the folder `"/missing"` nonexistent and a tier outside any enumerated
set, `organize_folder` does not fail with an input-validation error
before work starts — it spawns the interpreter subprocess and returns
its report. -/
theorem organize_spawns_without_validation_cx :
    envC1.pathExists optsC1.folder = false ∧
    organize_folder envC1 optsC1 = .ok "report" ∧
    organizeSpawns envC1 optsC1 =
      [("python3", organizeArgs (commandsScript parentDir) optsC1)] :=
  ⟨rfl, rfl, rfl⟩

/-- Claim C1 (amended): `organize_folder` performs no folder-existence
or tier validation before spawning — apart from the current-directory,
parent and script-path checks it spawns the interpreter exactly once
for any folder and tier value, delegating input validation to the
backend; and no call ever spawns more than one subprocess (so nothing
is retried). -/
theorem organize_no_pre_spawn_validation :
    (∀ env o, (organizeSpawns env o).length ≤ 1) ∧
    (∀ env (o : OrganizeOptions) root parent,
      env.currentDirResult = .ok root → env.parentOf root = some parent →
      env.pathExists (commandsScript parent) = true →
      organizeSpawns env o = [("python3", organizeArgs (commandsScript parent) o)]) := by
  constructor
  · intro env o
    unfold organizeSpawns organize_folder_run
    cases hc : env.currentDirResult with
    | error e => simp
    | ok root =>
      cases hp : env.parentOf root with
      | none => simp [hp]
      | some parent =>
        by_cases he : env.pathExists (commandsScript parent) = true
        · cases hrun : env.run "python3" (organizeArgs (commandsScript parent) o) with
          | error e => simp [hp, he, hrun]
          | ok out =>
            by_cases hs : out.success = true
            · simp [hp, he, hrun, hs]
            · simp [hp, he, hrun, hs]
        · simp [hp, he]
  · intro env o root parent hc hp he
    unfold organizeSpawns
    rw [organize_folder_run_eq env o hc hp he]
    cases hrun : env.run "python3" (organizeArgs (commandsScript parent) o) with
    | error e => simp
    | ok out =>
      by_cases hs : out.success = true
      · simp [hs]
      · simp [hs]

/-- Witness for the amended C1 at a concrete environment: the spawn
happens although the folder does not exist. -/
theorem organize_no_pre_spawn_validation_witness :
    organizeSpawns envC1 optsC1 =
      [("python3", organizeArgs (commandsScript parentDir) optsC1)] :=
  organize_no_pre_spawn_validation.2 envC1 optsC1 rootDir parentDir rfl rfl rfl

theorem specConfGood :
    SpecConformingClassifier envGood (fun fp => fp = "/f/a.pdf") := by
  intro script fp mm tier hfp
  refine ⟨{ success := true, stdout := "J", stderr := "" }, sampleJson, sampleResult,
    rfl, rfl, rfl, rfl, ?_, ?_, ?_⟩
  · decide
  · decide
  · decide

/-- Claim C2: with the classifier backend modelled from the spec, for
every valid file `classify_file` returns `Ok`, the result's confidence
lies in `[0,1]` and its category is non-empty — and no `Ok` result
violating either bound is ever returned. -/
theorem classify_confidence_bounds (env : Env) (valid : String → Prop)
    (hconf : SpecConformingClassifier env valid)
    (fp : String) (mm : Bool) (tier : String) (hfp : valid fp)
    (root parent : String)
    (hc : env.currentDirResult = .ok root)
    (hp : env.parentOf root = some parent)
    (he : env.pathExists (classifySingleScript parent) = true) :
    (∃ r, classify_file env fp mm tier = .ok r) ∧
    ∀ r, classify_file env fp mm tier = .ok r →
      0 ≤ r.confidence ∧ r.confidence ≤ 1 ∧ r.category ≠ "" := by
  obtain ⟨out, j, r, hrun, hs, hj, hd, h0, h1, hcat⟩ :=
    hconf (classifySingleScript parent) fp mm tier hfp
  have hok : classify_file env fp mm tier = .ok r := by
    unfold classify_file
    rw [classify_file_run_eq env fp mm tier hc hp he, hrun]
    simp [hs, hj, hd]
  refine ⟨⟨r, hok⟩, fun r' hr' => ?_⟩
  rw [hok] at hr'
  injection hr' with hrr
  rw [← hrr]
  exact ⟨h0, h1, hcat⟩

/-- Witness for C2 at a concrete spec-conforming environment. -/
theorem classify_confidence_bounds_witness :
    (∃ r, classify_file envGood "/f/a.pdf" false "free" = .ok r) ∧
    ∀ r, classify_file envGood "/f/a.pdf" false "free" = .ok r →
      0 ≤ r.confidence ∧ r.confidence ≤ 1 ∧ r.category ≠ "" :=
  classify_confidence_bounds envGood (fun fp => fp = "/f/a.pdf") specConfGood
    "/f/a.pdf" false "free" rfl rootDir parentDir rfl rfl rfl

/-- Claim C3: `classify_file` spawns the interpreter on the
`classify_single.py` script with exactly the arguments
`--file <file_path> --json`, followed by `--multi-model --tier <tier>`
if and only if `use_multi_model` is true, and its `Ok` result is the
parse of the subprocess's stdout as JSON. -/
theorem classify_command_and_result (env : Env) (fp : String) (mm : Bool)
    (tier : String) (root parent : String)
    (hc : env.currentDirResult = .ok root)
    (hp : env.parentOf root = some parent)
    (he : env.pathExists (classifySingleScript parent) = true) :
    classifySpawns env fp mm tier =
      [("python3", [classifySingleScript parent, "--file", fp, "--json"] ++
        (if mm then ["--multi-model", "--tier", tier] else []))] ∧
    ∀ r, classify_file env fp mm tier = .ok r ↔
      ∃ out, env.run "python3" (classifyArgs (classifySingleScript parent) fp mm tier) = .ok out ∧
        out.success = true ∧
        (env.jsonParse out.stdout).bind decodeClassification = some r := by
  constructor
  · unfold classifySpawns
    rw [classify_file_run_eq env fp mm tier hc hp he]
    cases hrun : env.run "python3" (classifyArgs (classifySingleScript parent) fp mm tier) with
    | error e => simp [classifyArgs]
    | ok out =>
      by_cases hs : out.success = true
      · cases hparse : (env.jsonParse out.stdout).bind decodeClassification with
        | none => simp [hs, hparse, classifyArgs]
        | some r => simp [hs, hparse, classifyArgs]
      · simp [hs, classifyArgs]
  · intro r
    unfold classify_file
    rw [classify_file_run_eq env fp mm tier hc hp he]
    cases hrun : env.run "python3" (classifyArgs (classifySingleScript parent) fp mm tier) with
    | error e => simp
    | ok out =>
      by_cases hs : out.success = true
      · cases hparse : (env.jsonParse out.stdout).bind decodeClassification with
        | none => simp [hs, hparse]
        | some r0 =>
          simp only [hs, if_true, hparse]
          constructor
          · intro hr
            injection hr with hrr
            exact ⟨out, rfl, hs, by rw [hparse, hrr]⟩
          · rintro ⟨out', hout', -, hp'⟩
            injection hout' with hoo
            rw [← hoo] at hp'
            rw [hparse] at hp'
            injection hp' with hrr
            rw [hrr]
      · simp [hs]

/-- Witness for C3 at a concrete environment with multi-model on. -/
theorem classify_command_and_result_witness :
    classifySpawns envGood "/f/a.pdf" true "pro" =
      [("python3", [classifySingleScript parentDir, "--file", "/f/a.pdf", "--json"] ++
        (if true then ["--multi-model", "--tier", "pro"] else []))] ∧
    ∀ r, classify_file envGood "/f/a.pdf" true "pro" = .ok r ↔
      ∃ out, envGood.run "python3" (classifyArgs (classifySingleScript parentDir) "/f/a.pdf" true "pro") = .ok out ∧
        out.success = true ∧
        (envGood.jsonParse out.stdout).bind decodeClassification = some r :=
  classify_command_and_result envGood "/f/a.pdf" true "pro" rootDir parentDir rfl rfl rfl

/-- Claim C4: `organize_folder` builds the subprocess argument list as
a deterministic function of the options — `organize <folder>`, then
`--preview` iff preview, `--auto` iff auto_approve, `--deep` iff
deep_analysis, `--multi-model --tier <user_tier>` iff use_multi_model —
and on subprocess success returns the subprocess's stdout as the report
text. -/
theorem organize_command_and_report (env : Env) (o : OrganizeOptions)
    (root parent : String)
    (hc : env.currentDirResult = .ok root)
    (hp : env.parentOf root = some parent)
    (he : env.pathExists (commandsScript parent) = true) :
    organizeSpawns env o =
      [("python3", [commandsScript parent, "organize", o.folder] ++
        (if o.preview then ["--preview"] else []) ++
        (if o.auto_approve then ["--auto"] else []) ++
        (if o.deep_analysis then ["--deep"] else []) ++
        (if o.use_multi_model then ["--multi-model", "--tier", o.user_tier] else []))] ∧
    ∀ out, env.run "python3" (organizeArgs (commandsScript parent) o) = .ok out →
      out.success = true → organize_folder env o = .ok out.stdout := by
  constructor
  · unfold organizeSpawns
    rw [organize_folder_run_eq env o hc hp he]
    cases hrun : env.run "python3" (organizeArgs (commandsScript parent) o) with
    | error e => simp [organizeArgs]
    | ok out =>
      by_cases hs : out.success = true
      · simp [hs, organizeArgs]
      · simp [hs, organizeArgs]
  · intro out hrun hs
    unfold organize_folder
    rw [organize_folder_run_eq env o hc hp he, hrun]
    simp [hs]

/-- Witness for C4 at a concrete environment with every flag set. -/
theorem organize_command_and_report_witness :
    organizeSpawns envGood optsAll =
      [("python3", [commandsScript parentDir, "organize", optsAll.folder] ++
        (if optsAll.preview then ["--preview"] else []) ++
        (if optsAll.auto_approve then ["--auto"] else []) ++
        (if optsAll.deep_analysis then ["--deep"] else []) ++
        (if optsAll.use_multi_model then ["--multi-model", "--tier", optsAll.user_tier] else []))] ∧
    ∀ out, envGood.run "python3" (organizeArgs (commandsScript parentDir) optsAll) = .ok out →
      out.success = true → organize_folder envGood optsAll = .ok out.stdout :=
  organize_command_and_report envGood optsAll rootDir parentDir rfl rfl rfl

/-- Claim C5: `classify_file` returns `Ok` exactly when the subprocess
exits successfully and its stdout is JSON that deserializes to a
`ClassificationResult` — every serde-required field present with its
declared type, under the verbatim field names; stdout whose JSON lacks
a required field yields `Err`. -/
theorem classify_ok_iff_required_fields (env : Env) (fp : String) (mm : Bool)
    (tier : String) (root parent : String)
    (hc : env.currentDirResult = .ok root)
    (hp : env.parentOf root = some parent)
    (he : env.pathExists (classifySingleScript parent) = true) :
    (∀ r, classify_file env fp mm tier = .ok r ↔
      ∃ out j, env.run "python3" (classifyArgs (classifySingleScript parent) fp mm tier) = .ok out ∧
        out.success = true ∧ env.jsonParse out.stdout = some j ∧
        decodeClassification j = some r) ∧
    (∀ out j f, env.run "python3" (classifyArgs (classifySingleScript parent) fp mm tier) = .ok out →
      out.success = true → env.jsonParse out.stdout = some j →
      f ∈ requiredFields → j.getField f = none →
      ∃ m, classify_file env fp mm tier = .error m) := by
  constructor
  · intro r
    unfold classify_file
    rw [classify_file_run_eq env fp mm tier hc hp he]
    cases hrun : env.run "python3" (classifyArgs (classifySingleScript parent) fp mm tier) with
    | error e => simp
    | ok out =>
      by_cases hs : out.success = true
      · cases hparse : (env.jsonParse out.stdout).bind decodeClassification with
        | none =>
          simp only [hs, if_true, hparse]
          constructor
          · intro h
            exact absurd h (by simp)
          · rintro ⟨out', j, hout', -, hj, hd⟩
            injection hout' with hoo
            rw [← hoo] at hj
            rw [hj] at hparse
            simp only [Option.some_bind] at hparse
            rw [hd] at hparse
            exact absurd hparse (by simp)
        | some r0 =>
          simp only [hs, if_true, hparse]
          constructor
          · intro hr
            injection hr with hrr
            rw [Option.bind_eq_some] at hparse
            obtain ⟨j, hj, hd⟩ := hparse
            exact ⟨out, j, rfl, hs, hj, by rw [hd, hrr]⟩
          · rintro ⟨out', j, hout', -, hj, hd⟩
            injection hout' with hoo
            rw [← hoo] at hj
            rw [hj] at hparse
            simp only [Option.some_bind] at hparse
            rw [hd] at hparse
            injection hparse with hrr
            rw [hrr]
      · simp [hs]
  · intro out j f hrun hs hj hf hnone
    have hdec : decodeClassification j = none := by
      cases hd : decodeClassification j with
      | none => rfl
      | some r => exact absurd hnone (decode_some_required hd f hf)
    refine ⟨"Failed to parse JSON: " ++ env.jsonErr out.stdout, ?_⟩
    unfold classify_file
    rw [classify_file_run_eq env fp mm tier hc hp he, hrun]
    simp [hs, hj, hdec]

/-- Witness for C5 at a concrete environment. -/
theorem classify_ok_iff_required_fields_witness :
    (∀ r, classify_file envGood "/f/a.pdf" false "free" = .ok r ↔
      ∃ out j, envGood.run "python3" (classifyArgs (classifySingleScript parentDir) "/f/a.pdf" false "free") = .ok out ∧
        out.success = true ∧ envGood.jsonParse out.stdout = some j ∧
        decodeClassification j = some r) ∧
    (∀ out j f, envGood.run "python3" (classifyArgs (classifySingleScript parentDir) "/f/a.pdf" false "free") = .ok out →
      out.success = true → envGood.jsonParse out.stdout = some j →
      f ∈ requiredFields → j.getField f = none →
      ∃ m, classify_file envGood "/f/a.pdf" false "free" = .error m) :=
  classify_ok_iff_required_fields envGood "/f/a.pdf" false "free" rootDir parentDir rfl rfl rfl

/-- Claim C6 is false as stated: a subprocess stderr spanning two lines
is embedded verbatim, so the error message returned at the boundary
spans two lines as well. -/
theorem error_multiline_cx :
    classify_file envC6 "/f/a.pdf" false "free" =
      .error "Python script failed: boom\nline2" ∧
    hasNewline "Python script failed: boom\nline2" = true :=
  ⟨rfl, by decide⟩

/-- Claim C6 (amended): every failure of `classify_file` or
`organize_folder` returns a flat human-readable message string — the
error value is a `String`, not a structured object, formed as one of a
fixed set of single-line heads followed by embedded detail; but when
the embedded subprocess stderr spans multiple lines the message does
too, so it is not always a single line. -/
theorem errors_are_flat_strings :
    (∀ env fp mm tier m, classify_file env fp mm tier = .error m → FlatMsg m) ∧
    (∀ env (o : OrganizeOptions) m, organize_folder env o = .error m → FlatMsg m) := by
  constructor
  · intro env fp mm tier
    unfold classify_file classify_file_run
    cases hc : env.currentDirResult with
    | error e =>
      intro m h
      simp at h
      exact ⟨"Failed to get current directory: ", e, h.symm, by decide, by decide⟩
    | ok root =>
      cases hp : env.parentOf root with
      | none =>
        intro m h
        simp [hp] at h
        exact ⟨"Failed to get parent directory", "", h.symm.trans (by decide),
          by decide, by decide⟩
      | some parent =>
        by_cases he : env.pathExists (classifySingleScript parent) = true
        · cases hrun : env.run "python3" (classifyArgs (classifySingleScript parent) fp mm tier) with
          | error e =>
            intro m h
            simp [hp, he, hrun] at h
            exact ⟨"Failed to execute Python: ", e, h.symm, by decide, by decide⟩
          | ok out =>
            by_cases hs : out.success = true
            · cases hparse : (env.jsonParse out.stdout).bind decodeClassification with
              | some r =>
                intro m h
                simp [hp, he, hrun, hs, hparse] at h
              | none =>
                intro m h
                simp [hp, he, hrun, hs, hparse] at h
                exact ⟨"Failed to parse JSON: ", env.jsonErr out.stdout, h.symm,
                  by decide, by decide⟩
            · intro m h
              simp [hp, he, hrun, hs] at h
              exact ⟨"Python script failed: ", out.stderr, h.symm, by decide, by decide⟩
        · intro m h
          simp [hp, he] at h
          refine ⟨"Python script not found at: \"",
            classifySingleScript parent ++ "\"", ?_, by decide, by decide⟩
          rw [← h, String.append_assoc]
  · intro env o
    unfold organize_folder organize_folder_run
    cases hc : env.currentDirResult with
    | error e =>
      intro m h
      simp at h
      exact ⟨"Failed to get current directory: ", e, h.symm, by decide, by decide⟩
    | ok root =>
      cases hp : env.parentOf root with
      | none =>
        intro m h
        simp [hp] at h
        exact ⟨"Failed to get parent directory", "", h.symm.trans (by decide),
          by decide, by decide⟩
      | some parent =>
        by_cases he : env.pathExists (commandsScript parent) = true
        · cases hrun : env.run "python3" (organizeArgs (commandsScript parent) o) with
          | error e =>
            intro m h
            simp [hp, he, hrun] at h
            exact ⟨"Failed to execute Python: ", e, h.symm, by decide, by decide⟩
          | ok out =>
            by_cases hs : out.success = true
            · intro m h
              simp [hp, he, hrun, hs] at h
            · intro m h
              simp [hp, he, hrun, hs] at h
              exact ⟨"Organization failed: ", out.stderr, h.symm, by decide, by decide⟩
        · intro m h
          simp [hp, he] at h
          refine ⟨"Python script not found at: \"",
            commandsScript parent ++ "\"", ?_, by decide, by decide⟩
          rw [← h, String.append_assoc]

/-- Witness for the amended C6: the concrete two-line failure message
is a flat string with a single-line head. -/
theorem errors_are_flat_strings_witness :
    FlatMsg "Python script failed: boom\nline2" :=
  errors_are_flat_strings.1 envC6 "/f/a.pdf" false "free"
    "Python script failed: boom\nline2" rfl

end AiOrg
